import Mathlib

/-!
Shallow embedding of `bikeshare.py` (US bike-share data exploration tool).

Modelling conventions:
* A pandas `DataFrame` is a list of named columns, each column a list of
  `Value`s in row order.  A missing (`NaN`) cell is `Value.nan`; a column that
  is absent from the frame is simply not in the list, and subscripting it
  yields a Python `KeyError`, modelled with `Except`.
* Fallible Python code is modelled in the `Except PyError` monad; returning
  `.error e` models an exception `e` propagating to the caller, and a Python
  `try/except` block is a `match` on that result that turns the listed,
  caught exception kinds back into normal results.
* `print` output is modelled as the list of printed strings (one element per
  `print` call); the wall-clock timing line in each statistics routine is an
  informational side effect and is not part of the model.
* Timestamps are modelled by the three projections the program reads from
  them (`dt.month_name()`, `dt.day_name()`, `dt.hour`): a parsed timestamp
  carries its calendar month (1-12), its weekday (0 = Monday .. 6 = Sunday,
  pandas' `dayofweek` convention) and its hour.
* Python floats are modelled as rationals.  Because the kernel cannot reduce
  Mathlib's `Rat` field operations, Python's `//`, `%` and `round` on
  rationals are implemented directly on numerator/denominator integer
  arithmetic; bridge lemmas below prove they satisfy the floor-division
  characterisation, so they agree with the float semantics of the source.
-/

/-- A parsed timestamp, reduced to the projections the program uses. -/
structure Timestamp where
  month : Nat
  weekday : Nat
  hour : Nat
deriving DecidableEq, Repr

/-- A cell of a pandas column: a string, a number, a timestamp, or `NaN`. -/
inductive Value where
  | s (v : String)
  | q (v : ℚ)
  | t (v : Timestamp)
  | nan
deriving DecidableEq, Repr

/-- A pandas `DataFrame`: named columns in order, each a list of cells. -/
abbrev DataFrame := List (String × List Value)

/-- The Python exception kinds the program raises or catches. -/
inductive PyError where
  | keyError (k : String)
  | indexError (msg : String)
  | attributeError (msg : String)
  | valueError (msg : String)
deriving DecidableEq, Repr

instance {ε α : Type} [DecidableEq ε] [DecidableEq α] : DecidableEq (Except ε α) := fun x y =>
  match x, y with
  | .ok a, .ok b =>
      if h : a = b then .isTrue (by rw [h]) else .isFalse (fun hc => h (Except.ok.inj hc))
  | .error a, .error b =>
      if h : a = b then .isTrue (by rw [h]) else .isFalse (fun hc => h (Except.error.inj hc))
  | .ok _, .error _ => .isFalse (fun hc => Except.noConfusion hc)
  | .error _, .ok _ => .isFalse (fun hc => Except.noConfusion hc)

/-- Rendering of an exception as Python's `f"{e}"` would show it
(`str` of a `KeyError` shows the quoted key). -/
def errStr : PyError → String
  | .keyError k => "'" ++ k ++ "'"
  | .indexError m => m
  | .attributeError m => m
  | .valueError m => m

/-- `CITY_DATA` from the source: city name to CSV file name. -/
def CITY_DATA : List (String × String) :=
  [("chicago", "chicago.csv"),
   ("new york city", "new_york_city.csv"),
   ("washington", "washington.csv")]

/-- `VALID_MONTHS` from the source. -/
def VALID_MONTHS : List String :=
  ["january", "february", "march", "april", "may", "june"]

/-- `VALID_DAYS` from the source. -/
def VALID_DAYS : List String :=
  ["monday", "tuesday", "wednesday", "thursday", "friday", "saturday", "sunday"]

/-- `ALL_OPTION` from the source. -/
def ALL_OPTION : String := "all"

/-- Python `str.lower()` (ASCII case folding, which covers every string the
program manipulates). -/
def pyLower (s : String) : String := ⟨s.data.map Char.toLower⟩

/-- Python `str.strip()`: remove leading and trailing whitespace. -/
def pyStrip (s : String) : String :=
  ⟨((s.data.dropWhile Char.isWhitespace).reverse.dropWhile Char.isWhitespace).reverse⟩

/-- Helper for `pyTitle`: the boolean records whether the previous character
was alphabetic. -/
def pyTitleAux : Bool → List Char → List Char
  | _, [] => []
  | prevAlpha, c :: cs =>
    (if c.isAlpha then (if prevAlpha then c.toLower else c.toUpper) else c)
      :: pyTitleAux c.isAlpha cs

/-- Python `str.title()`: uppercase each alphabetic character that follows a
non-alphabetic one, lowercase the rest. -/
def pyTitle (s : String) : String := ⟨pyTitleAux false s.data⟩

/-- Column subscription `df[name]`: the column's cells, or a `KeyError` when
the column is absent (pandas raises `KeyError`, not `AttributeError`, here). -/
def colGet (df : DataFrame) (name : String) : Except PyError (List Value) :=
  match df.find? (fun c => c.1 == name) with
  | some c => Except.ok c.2
  | none => Except.error (.keyError name)

/-- Membership test `name in df.columns`. -/
def hasCol (df : DataFrame) (name : String) : Bool :=
  df.any (fun c => c.1 == name)

/-- Column assignment `df[name] = vals`: replace the column in place if it
exists, otherwise append it on the right. -/
def setCol (df : DataFrame) (name : String) (vals : List Value) : DataFrame :=
  if df.any (fun c => c.1 == name) then
    df.map (fun c => if c.1 == name then (name, vals) else c)
  else
    df ++ [(name, vals)]

/-- Boolean-mask row selection on a single column, as in `df[mask]`. -/
def applyMask : List Value → List Bool → List Value
  | [], _ => []
  | _ :: _, [] => []
  | v :: vs, b :: bs => if b then v :: applyMask vs bs else applyMask vs bs

/-- Boolean-mask row selection on a whole frame: the same mask is applied to
every column, so rows are kept or dropped as units and order is preserved. -/
def maskDF (df : DataFrame) (mask : List Bool) : DataFrame :=
  df.map (fun c => (c.1, applyMask c.2 mask))

/-- `Series.dropna()`: remove the missing cells. -/
def dropna (vals : List Value) : List Value :=
  vals.filter (fun v => v ≠ Value.nan)

/-- Calendar month number to English month name, as `dt.month_name()`. -/
def monthName : Nat → String
  | 1 => "January" | 2 => "February" | 3 => "March" | 4 => "April"
  | 5 => "May" | 6 => "June" | 7 => "July" | 8 => "August"
  | 9 => "September" | 10 => "October" | 11 => "November" | 12 => "December"
  | _ => "nan"

/-- Weekday number (0 = Monday) to English day name, as `dt.day_name()`. -/
def dayName : Nat → String
  | 0 => "Monday" | 1 => "Tuesday" | 2 => "Wednesday" | 3 => "Thursday"
  | 4 => "Friday" | 5 => "Saturday" | 6 => "Sunday"
  | _ => "nan"

/-- Whether every cell of a column is a timestamp; the `.dt` accessor demands
a datetime-like column and otherwise raises `AttributeError`. -/
def allDatetime (vals : List Value) : Bool :=
  vals.all (fun v => match v with | .t _ => true | _ => false)

/-- The message of the `AttributeError` raised by `.dt` on a non-datetime
column. -/
def dtErrMsg : String := "Can only use .dt accessor with datetimelike values"

/-- `series.dt.month_name()`. -/
def dtMonthName (vals : List Value) : Except PyError (List Value) :=
  if allDatetime vals then
    Except.ok (vals.map (fun v => match v with
      | .t ts => Value.s (monthName ts.month)
      | _ => Value.nan))
  else Except.error (.attributeError dtErrMsg)

/-- `series.dt.day_name()`. -/
def dtDayName (vals : List Value) : Except PyError (List Value) :=
  if allDatetime vals then
    Except.ok (vals.map (fun v => match v with
      | .t ts => Value.s (dayName ts.weekday)
      | _ => Value.nan))
  else Except.error (.attributeError dtErrMsg)

/-- `series.dt.hour` (hours are small naturals; `mkRat n 1` keeps the cell
kernel-computable). -/
def dtHour (vals : List Value) : Except PyError (List Value) :=
  if allDatetime vals then
    Except.ok (vals.map (fun v => match v with
      | .t ts => Value.q (mkRat ts.hour 1)
      | _ => Value.nan))
  else Except.error (.attributeError dtErrMsg)

/-- Python `str(cell)` as used by `astype(str)` and f-strings; crucially,
`str` of a missing value is the three-letter string "nan". -/
def pyStr : Value → String
  | .s v => v
  | .q v => if v.den == 1 then toString v.num else toString v.num ++ "/" ++ toString v.den
  | .t v => "Timestamp(" ++ toString v.month ++ "," ++ toString v.weekday ++ "," ++ toString v.hour ++ ")"
  | .nan => "nan"

/-- `series.astype(str)`: every cell becomes a string — including `NaN`,
which becomes the string "nan" and is from then on not missing any more. -/
def astypeStr (vals : List Value) : List Value :=
  vals.map (fun v => Value.s (pyStr v))

/-- `series.fillna(x)`: replace the cells that are still missing. -/
def fillna (vals : List Value) (x : String) : List Value :=
  vals.map (fun v => if v = Value.nan then Value.s x else v)

/-- Elementwise `startSeries + " to " + endSeries` on two string columns (the
program only ever adds columns produced by `astype(str)`, so the non-string
fallback, which real pandas would reject with a `TypeError`, is dead). -/
def seriesConcatTo (xs ys : List Value) : List Value :=
  List.zipWith (fun a b => match a, b with
    | Value.s x, Value.s y => Value.s (x ++ " to " ++ y)
    | _, _ => Value.nan) xs ys

/-- Resolution of the city name to its CSV path: `CITY_DATA[city.lower()]`
inside `load_data`'s `try`, whose `except KeyError` re-raises
`ValueError(f"Invalid city name: {city}")` with the unmodified argument. -/
def resolveCity (city : String) : Except PyError String :=
  match CITY_DATA.find? (fun c => c.1 == pyLower city) with
  | some c => Except.ok ("./data/" ++ c.2)
  | none => Except.error (.valueError ("Invalid city name: " ++ city))

/-- `filter_by_period` from `load_data`: strip and lowercase the request;
"all" means no filtering; any other value not in the valid list raises
`ValueError(f"Invalid {period_name}: {period_input}")`; otherwise keep the
rows whose `col_name` cell equals the title-cased request. -/
def filter_by_period (df_input : DataFrame) (col_name period_name period_input : String)
    (valid_periods : List String) : Except PyError DataFrame :=
  let p := pyLower (pyStrip period_input)
  if p ≠ ALL_OPTION then
    if p ∉ valid_periods then
      Except.error (.valueError ("Invalid " ++ period_name ++ ": " ++ p))
    else
      match colGet df_input col_name with
      | Except.ok cvals =>
          Except.ok (maskDF df_input (cvals.map (fun x => x == Value.s (pyTitle p))))
      | Except.error e => Except.error e
  else
    Except.ok df_input

/-- `load_data`, from the point where the CSV has been read and parsed into
`raw` (file access itself is outside the model): derive the Month, Day Name
and Trip columns, then filter by month and by day. -/
def load_data (city month day : String) (raw : DataFrame) : Except PyError DataFrame := do
  let _filename ← resolveCity city
  let st ← colGet raw "Start Time"
  let mn ← dtMonthName st
  let df1 := setCol raw "Month" mn
  let dn ← dtDayName st
  let df2 := setCol df1 "Day Name" dn
  let ss ← colGet df2 "Start Station"
  let es ← colGet df2 "End Station"
  let trip := seriesConcatTo (fillna (astypeStr ss) "No Start Station")
                             (fillna (astypeStr es) "No End Station")
  let df3 := setCol df2 "Trip" trip
  let df4 ← filter_by_period df3 "Month" "month" month VALID_MONTHS
  let df5 ← filter_by_period df4 "Day Name" "day" day VALID_DAYS
  pure df5

/-- `series.mode().iat[0]` as one operation: `mode` ignores missing values
and `iat[0]` picks one value of maximal frequency, raising `IndexError` when
the series has no non-missing value.  (pandas returns the modal values in
sorted order; which modal value wins a tie is not part of any contract, so
the model makes the deterministic choice of the first-encountered one.) -/
def modeIat0 (vals : List Value) : Except PyError Value :=
  match (dropna vals).argmax (fun v => (dropna vals).count v) with
  | some v => Except.ok v
  | none => Except.error (.indexError "index 0 is out of bounds for axis 0 with size 0")

/-- Whether an exception is caught by the statistics routines'
`except (AttributeError, IndexError)` clause.  `KeyError` is not. -/
def isCaughtStats : PyError → Bool
  | .attributeError _ => true
  | .indexError _ => true
  | _ => false

/-- Body of `time_stats`'s `try` block. -/
def time_stats_try (df : DataFrame) : Except PyError (List String) := do
  let mcol ← colGet df "Month"
  let mostCommonMonth ← modeIat0 mcol
  let dcol ← colGet df "Day Name"
  let mostCommonDow ← modeIat0 dcol
  let scol ← colGet df "Start Time"
  let hrs ← dtHour scol
  let mostCommonStartHr ← modeIat0 hrs
  pure ["The most common month is " ++ pyStr mostCommonMonth ++ ".",
        "The most common day of week is " ++ pyStr mostCommonDow ++ ".",
        "The most common start hour is " ++ pyStr mostCommonStartHr ++ "."]

/-- `time_stats`: the `try` body with `except (AttributeError, IndexError)`
printing an error message; any other exception propagates to the caller. -/
def time_stats (df : DataFrame) : Except PyError (List String) :=
  match time_stats_try df with
  | Except.ok lines => Except.ok lines
  | Except.error e =>
      if isCaughtStats e then Except.ok ["Error calculating time stats: " ++ errStr e]
      else Except.error e

/-- Body of `station_stats`'s `try` block. -/
def station_stats_try (df : DataFrame) : Except PyError (List String) := do
  let scol ← colGet df "Start Station"
  let mostCommonStart ← modeIat0 scol
  let ecol ← colGet df "End Station"
  let mostCommonEnd ← modeIat0 ecol
  let tcol ← colGet df "Trip"
  let mostFrequentTrip ← modeIat0 tcol
  pure ["The most commonly used start station is " ++ pyStr mostCommonStart ++ ".",
        "The most commonly used end station is " ++ pyStr mostCommonEnd ++ ".",
        "The most frequent trip is " ++ pyStr mostFrequentTrip ++ "."]

/-- `station_stats`, with the same exception policy as `time_stats`. -/
def station_stats (df : DataFrame) : Except PyError (List String) :=
  match station_stats_try df with
  | Except.ok lines => Except.ok lines
  | Except.error e =>
      if isCaughtStats e then Except.ok ["Error calculating station stats: " ++ errStr e]
      else Except.error e

/-- `series.value_counts()` ignores missing values and lists each distinct
value with its count, most common first (stable under ties). -/
def insertByCount (x : Value × Nat) : List (Value × Nat) → List (Value × Nat)
  | [] => [x]
  | y :: ys => if y.2 < x.2 then x :: y :: ys else y :: insertByCount x ys

/-- Stable insertion sort by descending count, for `value_counts`. -/
def sortByCountDesc : List (Value × Nat) → List (Value × Nat)
  | [] => []
  | x :: xs => insertByCount x (sortByCountDesc xs)

/-- `series.value_counts()`: distinct non-missing values with counts. -/
def value_counts (vals : List Value) : List (Value × Nat) :=
  sortByCountDesc ((dropna vals).dedup.map (fun v => (v, (dropna vals).count v)))

/-- Rendering of a `value_counts` result, one value per line as pandas
prints a Series. -/
def renderCounts (counts : List (Value × Nat)) : String :=
  String.intercalate "\n" (counts.map (fun p => pyStr p.1 ++ "    " ++ toString p.2))

/-- Message of the `ValueError` numpy raises for `nanmin` of an empty array. -/
def nanminMsg : String := "zero-size array to reduction operation fmin which has no identity"

/-- Message of the `ValueError` numpy raises for `nanmax` of an empty array. -/
def nanmaxMsg : String := "zero-size array to reduction operation fmax which has no identity"

/-- `np.nanmin` on the (already NaN-free) birth-year values; empty input
raises `ValueError`. -/
def nanmin : List ℚ → Except PyError ℚ
  | [] => Except.error (.valueError nanminMsg)
  | x :: xs => Except.ok (xs.foldl min x)

/-- `np.nanmax`, dually. -/
def nanmax : List ℚ → Except PyError ℚ
  | [] => Except.error (.valueError nanmaxMsg)
  | x :: xs => Except.ok (xs.foldl max x)

/-- Numeric reading of a cell (the Birth Year column is numeric in the data;
non-numeric cells cannot reach the arithmetic below because `dropna` only
leaves values the source files parsed as numbers). -/
def toQ : Value → ℚ
  | .q v => v
  | _ => 0

/-- Python `int()` on a float: truncation toward zero. -/
def intPy (q : ℚ) : ℤ := q.num.tdiv (q.den : ℤ)

/-- The three birth-year report lines, or the first exception of the inner
`try` block of `user_stats` (empty data makes `np.nanmin` raise). -/
def birthLines (c : List Value) : Except PyError (List String) := do
  let bs := (dropna c).map toQ
  let earliest ← nanmin bs
  let mostRecent ← nanmax bs
  let mostCommon ← modeIat0 c
  pure ["Earliest birth year: " ++ toString (intPy earliest),
        "Most recent birth year: " ++ toString (intPy mostRecent),
        "Most common birth year: " ++ toString (intPy (toQ mostCommon)) ++ "\n"]

/-- Whether an exception is caught by the inner `except ValueError` of
`user_stats`. -/
def isValueError : PyError → Bool
  | .valueError _ => true
  | _ => false

/-- The two lines printed by the inner `except ValueError` handler. -/
def birthErrLines (e : PyError) : List String :=
  ["Error processing birth years: " ++ errStr e,
   "Birth year data may contain invalid values.\n"]

/-- The single line printed for the User Type sub-report. -/
def userTypeLine (c : List Value) : String :=
  "User Counts:\n" ++ renderCounts (value_counts c) ++ "\n"

/-- The single line printed for the Gender sub-report. -/
def genderLine (c : List Value) : String :=
  "Gender Counts:\n" ++ renderCounts (value_counts c) ++ "\n"

/-- The User Type block of `user_stats`: guarded by column presence. -/
def utPart (df : DataFrame) : Except PyError (List String) :=
  if hasCol df "User Type" then
    match colGet df "User Type" with
    | Except.ok c => Except.ok [userTypeLine c]
    | Except.error e => Except.error e
  else Except.ok []

/-- The Gender block of `user_stats`: guarded by column presence. -/
def gPart (df : DataFrame) : Except PyError (List String) :=
  if hasCol df "Gender" then
    match colGet df "Gender" with
    | Except.ok c => Except.ok [genderLine c]
    | Except.error e => Except.error e
  else Except.ok []

/-- The Birth Year block of `user_stats`: guarded by column presence, with
the inner `try/except ValueError` around the year computations. -/
def byPart (df : DataFrame) : Except PyError (List String) :=
  if hasCol df "Birth Year" then
    match colGet df "Birth Year" with
    | Except.ok c =>
        match birthLines c with
        | Except.ok ls => Except.ok ls
        | Except.error e =>
            if isValueError e then Except.ok (birthErrLines e) else Except.error e
    | Except.error e => Except.error e
  else Except.ok []

/-- Body of `user_stats`'s outer `try` block: the three conditional
sub-reports in source order. -/
def user_stats_try (df : DataFrame) : Except PyError (List String) := do
  let a ← utPart df
  let b ← gPart df
  let c ← byPart df
  pure (a ++ b ++ c)

/-- `user_stats`: outer `except (AttributeError, IndexError)` as in the
other statistics routines. -/
def user_stats (df : DataFrame) : Except PyError (List String) :=
  match user_stats_try df with
  | Except.ok lines => Except.ok lines
  | Except.error e =>
      if isCaughtStats e then Except.ok ["Error calculating user stats: " ++ errStr e]
      else Except.error e

/-- Total value of the User Type block (proved below to be what `utPart`
returns for every frame). -/
def utBlock (df : DataFrame) : List String :=
  if hasCol df "User Type" then
    match colGet df "User Type" with
    | Except.ok c => [userTypeLine c]
    | Except.error _ => []
  else []

/-- Total value of the Gender block. -/
def gBlock (df : DataFrame) : List String :=
  if hasCol df "Gender" then
    match colGet df "Gender" with
    | Except.ok c => [genderLine c]
    | Except.error _ => []
  else []

/-- Total value of the Birth Year block. -/
def byBlock (df : DataFrame) : List String :=
  if hasCol df "Birth Year" then
    match colGet df "Birth Year" with
    | Except.ok c =>
        match birthLines c with
        | Except.ok ls => ls
        | Except.error e => if isValueError e then birthErrLines e else []
    | Except.error _ => []
  else []

/-- Python floor division of a rational by a positive natural constant,
`s // k` (floats round toward negative infinity under `//`); stated on the
numerator and denominator so the kernel can evaluate it.  `Int` division `/`
rounds toward negative infinity for a positive divisor. -/
def qFloorDiv (s : ℚ) (k : ℕ) : ℤ := s.num / (k * (s.den : ℤ))

/-- Python float modulo by a positive natural constant, `s % k` (the result
takes the sign of the divisor, i.e. `s - k * (s // k)`). -/
def qMod (s : ℚ) (k : ℕ) : ℚ := mkRat (s.num % (k * (s.den : ℤ))) s.den

/-- Python `round` to an integer: nearest integer, ties to the even one. -/
def pyRound (q : ℚ) : ℤ :=
  let f : ℤ := q.num / (q.den : ℤ)
  let r : ℤ := q.num - f * (q.den : ℤ)
  if 2 * r < (q.den : ℤ) then f
  else if (q.den : ℤ) < 2 * r then f + 1
  else if f % 2 = 0 then f else f + 1

/-- `format_duration` from `trip_duration_stats`: decompose into days,
hours, minutes and rounded seconds, then emit the positive components in
order, always emitting seconds when nothing else was emitted. -/
def format_duration (seconds : ℚ) : String :=
  let days : ℤ := qFloorDiv seconds 86400
  let hours : ℤ := qFloorDiv (qMod seconds 86400) 3600
  let minutes : ℤ := qFloorDiv (qMod seconds 3600) 60
  let secs : ℤ := pyRound (qMod seconds 60)
  let duration : List String :=
    (if 0 < days then [toString days ++ " days"] else [])
      ++ (if 0 < hours then [toString hours ++ " hours"] else [])
      ++ (if 0 < minutes then [toString minutes ++ " minutes"] else [])
  let duration := if 0 < secs ∨ duration = [] then duration ++ [toString secs ++ " seconds"] else duration
  " ".intercalate duration

/-- The duration format as the specification words it: the same
decomposition, emitting exactly the units of non-zero magnitude in
descending order, and "0 seconds" when every component is zero. -/
def format_duration_spec (seconds : ℚ) : String :=
  let days : ℤ := qFloorDiv seconds 86400
  let hours : ℤ := qFloorDiv (qMod seconds 86400) 3600
  let minutes : ℤ := qFloorDiv (qMod seconds 3600) 60
  let secs : ℤ := pyRound (qMod seconds 60)
  let nonzero := [(days, " days"), (hours, " hours"), (minutes, " minutes"),
                  (secs, " seconds")].filter (fun u => u.1 ≠ 0)
  if nonzero = [] then "0 seconds"
  else " ".intercalate (nonzero.map (fun u => toString u.1 ++ u.2))

/-- A March-Monday timestamp for the concrete tables below. -/
def tsMar : Timestamp := ⟨3, 0, 9⟩

/-- An April-Tuesday timestamp for the concrete tables below. -/
def tsApr : Timestamp := ⟨4, 1, 10⟩

/-- A two-row city table as `pd.read_csv` would deliver it. -/
def rawW : DataFrame :=
  [("Start Time", [Value.t tsMar, Value.t tsApr]),
   ("End Time", [Value.t tsMar, Value.t tsApr]),
   ("Trip Duration", [Value.q (mkRat 300 1), Value.q (mkRat 600 1)]),
   ("Start Station", [Value.s "A St", Value.s "B St"]),
   ("End Station", [Value.s "C St", Value.s "D St"])]

/-- The frame `load_data "chicago" "march" "all" rawW` produces: derived
columns appended, then only the March row retained. -/
def outW : DataFrame :=
  [("Start Time", [Value.t tsMar]),
   ("End Time", [Value.t tsMar]),
   ("Trip Duration", [Value.q (mkRat 300 1)]),
   ("Start Station", [Value.s "A St"]),
   ("End Station", [Value.s "C St"]),
   ("Month", [Value.s "March"]),
   ("Day Name", [Value.s "Monday"]),
   ("Trip", [Value.s "A St to C St"])]

/-- A one-row table whose Start Station is missing, to exercise the Trip
sentinel substitution. -/
def rawNan : DataFrame :=
  [("Start Time", [Value.t tsMar]),
   ("End Time", [Value.t tsMar]),
   ("Trip Duration", [Value.q (mkRat 300 1)]),
   ("Start Station", [Value.nan]),
   ("End Station", [Value.s "Clark St"])]

/-- An empty table that still has every required column, as filtering a
loaded city down to zero rows produces. -/
def dfEmptyCols : DataFrame :=
  [("Start Time", []), ("End Time", []), ("Trip Duration", []),
   ("Start Station", []), ("End Station", []),
   ("Month", []), ("Day Name", []), ("Trip", [])]

/-- A small frame with a Month column, for the filter theorems' witnesses. -/
def dfX : DataFrame := [("Month", [Value.s "March", Value.s "April"])]

/-- A frame with a User Type column, no Gender column, and an all-missing
Birth Year column. -/
def dfW8 : DataFrame :=
  [("User Type", [Value.s "Subscriber", Value.s "Customer", Value.s "Subscriber"]),
   ("Birth Year", [Value.nan, Value.nan, Value.nan])]

theorem exceptBind_ok {ε α β : Type} {e : Except ε α} {k : α → Except ε β} {b : β} :
    (e >>= k) = Except.ok b ↔ ∃ a, e = Except.ok a ∧ k a = Except.ok b := by
  cases e with
  | ok a =>
      constructor
      · intro h; exact ⟨a, rfl, h⟩
      · rintro ⟨a2, ha, hk⟩; cases Except.ok.inj ha; exact hk
  | error err =>
      constructor
      · intro h; exact Except.noConfusion h
      · rintro ⟨a2, ha, _⟩; exact Except.noConfusion ha

theorem exceptPure_ok {ε α : Type} {a b : α} :
    (pure a : Except ε α) = Except.ok b ↔ a = b := by
  constructor
  · intro h; exact Except.ok.inj h
  · intro h; subst h; rfl

theorem applyMask_sublist (vals : List Value) (mask : List Bool) :
    (applyMask vals mask).Sublist vals := by
  induction vals generalizing mask with
  | nil => simp [applyMask]
  | cons v vs ih =>
      cases mask with
      | nil => simp [applyMask]
      | cons b bs =>
          cases b with
          | true => simpa [applyMask] using (ih bs).cons₂ v
          | false => simpa [applyMask] using (ih bs).cons v

theorem mem_of_mem_applyMask {v : Value} (vals : List Value) (mask : List Bool)
    (h : v ∈ applyMask vals mask) : v ∈ vals :=
  (applyMask_sublist vals mask).subset h

theorem applyMask_self_eq (vals : List Value) (t : Value) :
    ∀ v ∈ applyMask vals (vals.map (fun x => x == t)), v = t := by
  induction vals with
  | nil => intro v hv; simp [applyMask] at hv
  | cons w ws ih =>
      intro v hv
      rw [List.map_cons] at hv
      by_cases hw : (w == t) = true
      · simp only [applyMask, if_pos hw] at hv
        rcases List.mem_cons.mp hv with h | h
        · rw [h]; exact eq_of_beq hw
        · exact ih v h
      · simp only [applyMask, if_neg hw] at hv
        exact ih v hv

theorem find?_maskDF (df : DataFrame) (mask : List Bool) (n : String) :
    (maskDF df mask).find? (fun c => c.1 == n) =
      (df.find? (fun c => c.1 == n)).map (fun c => (c.1, applyMask c.2 mask)) := by
  induction df with
  | nil => rfl
  | cons c cs ih =>
      by_cases hc : (c.1 == n) = true
      · simp [maskDF, List.find?_cons, hc]
      · simpa [maskDF, List.find?_cons, hc] using ih

theorem colGet_maskDF (df : DataFrame) (mask : List Bool) (n : String) :
    colGet (maskDF df mask) n = (colGet df n).map (fun vals => applyMask vals mask) := by
  unfold colGet
  rw [find?_maskDF]
  cases df.find? (fun c => c.1 == n) <;> rfl

theorem maskDF_forall₂ (df : DataFrame) (mask : List Bool) :
    List.Forall₂ (fun cIn cOut => cIn.1 = cOut.1 ∧ cOut.2.Sublist cIn.2) df (maskDF df mask) := by
  induction df with
  | nil => exact List.Forall₂.nil
  | cons c cs ih => exact List.Forall₂.cons ⟨rfl, applyMask_sublist c.2 mask⟩ ih

theorem filter_by_period_all (df : DataFrame) (col pname v : String) (valids : List String)
    (h : pyLower (pyStrip v) = ALL_OPTION) :
    filter_by_period df col pname v valids = Except.ok df := by
  unfold filter_by_period
  simp [h]

theorem filter_by_period_invalid_eq (df : DataFrame) (col pname v : String)
    (valids : List String) (h1 : pyLower (pyStrip v) ≠ ALL_OPTION)
    (h2 : pyLower (pyStrip v) ∉ valids) :
    filter_by_period df col pname v valids =
      Except.error (.valueError ("Invalid " ++ pname ++ ": " ++ pyLower (pyStrip v))) := by
  unfold filter_by_period
  simp [h1, h2]

theorem filter_by_period_match (df : DataFrame) (col pname v : String)
    (valids : List String) (cvals : List Value) (h1 : pyLower (pyStrip v) ≠ ALL_OPTION)
    (h2 : pyLower (pyStrip v) ∈ valids) (hc : colGet df col = Except.ok cvals) :
    filter_by_period df col pname v valids =
      Except.ok (maskDF df (cvals.map (fun x => x == Value.s (pyTitle (pyLower (pyStrip v)))))) := by
  unfold filter_by_period
  simp [h1, h2, hc]

theorem filter_by_period_ok_ne_inv (df : DataFrame) (col pname v : String)
    (valids : List String) (out : DataFrame)
    (h : filter_by_period df col pname v valids = Except.ok out)
    (h1 : pyLower (pyStrip v) ≠ ALL_OPTION) :
    ∃ cvals, colGet df col = Except.ok cvals ∧
      out = maskDF df (cvals.map (fun x => x == Value.s (pyTitle (pyLower (pyStrip v))))) := by
  unfold filter_by_period at h
  simp only [h1, if_true, ne_eq, not_false_iff] at h
  by_cases h2 : pyLower (pyStrip v) ∈ valids
  · simp only [h2, not_true, if_neg, if_false] at h
    cases hc : colGet df col with
    | ok cvals =>
        rw [hc] at h
        exact ⟨cvals, rfl, (Except.ok.inj h).symm⟩
    | error e =>
        rw [hc] at h
        exact Except.noConfusion h
  · simp only [h2, not_false_iff, if_true] at h
    exact Except.noConfusion h

theorem filter_by_period_ok_inv (df : DataFrame) (col pname v : String)
    (valids : List String) (out : DataFrame)
    (h : filter_by_period df col pname v valids = Except.ok out) :
    out = df ∨ ∃ cvals, colGet df col = Except.ok cvals ∧
      out = maskDF df (cvals.map (fun x => x == Value.s (pyTitle (pyLower (pyStrip v))))) := by
  by_cases h1 : pyLower (pyStrip v) = ALL_OPTION
  · left
    rw [filter_by_period_all df col pname v valids h1] at h
    exact (Except.ok.inj h).symm
  · right
    exact filter_by_period_ok_ne_inv df col pname v valids out h h1

/-- C2 counterexample: `filter_by_period` does not treat an empty selection
as "all".  Passed the empty string, it raises
`ValueError("Invalid month: ")` instead of returning the table unchanged
(only the interactive prompt layer maps an empty reply to "all" before
`filter_by_period` is ever called). -/
theorem filter_by_period_empty_string_rejected :
    filter_by_period dfX "Month" "month" "" VALID_MONTHS =
        Except.error (PyError.valueError "Invalid month: ") ∧
      filter_by_period dfX "Month" "month" "" VALID_MONTHS ≠ Except.ok dfX :=
  ⟨by decide, by decide⟩

/-- C2 (amended): for every table, `filter_by_period` with a requested value
that strips and lowercases to "all" (any casing, any surrounding whitespace)
returns the table unchanged — the identity on the table; the empty string is
not such a value and is instead rejected as an invalid period. -/
theorem filter_by_period_all_is_identity (df : DataFrame) (col pname v : String)
    (valids : List String) (h : pyLower (pyStrip v) = ALL_OPTION) :
    filter_by_period df col pname v valids = Except.ok df :=
  filter_by_period_all df col pname v valids h

/-- Witness for C2's amended theorem at a concrete table and the concrete
request " ALL ". -/
theorem filter_by_period_all_is_identity_witness :
    filter_by_period dfX "Month" "month" " ALL " VALID_MONTHS = Except.ok dfX :=
  filter_by_period_all_is_identity dfX "Month" "month" " ALL " VALID_MONTHS (by decide)

/-- C4: a requested period value whose stripped, lowercased form is neither
"all" nor in the valid list makes `filter_by_period` fail with
`ValueError("Invalid {period_name}: {value}")`, naming the (normalised)
offending value and the period kind; a value that matches a valid period up
to casing is accepted and filters on the title-cased form instead. -/
theorem filter_by_period_invalid_period (df : DataFrame) (col pname v : String)
    (valids : List String) :
    (pyLower (pyStrip v) ≠ ALL_OPTION → pyLower (pyStrip v) ∉ valids →
      filter_by_period df col pname v valids =
        Except.error (.valueError ("Invalid " ++ pname ++ ": " ++ pyLower (pyStrip v)))) ∧
    (pyLower (pyStrip v) ≠ ALL_OPTION → pyLower (pyStrip v) ∈ valids →
      ∀ cvals, colGet df col = Except.ok cvals →
        filter_by_period df col pname v valids =
          Except.ok (maskDF df (cvals.map (fun x =>
            x == Value.s (pyTitle (pyLower (pyStrip v))))))) :=
  ⟨fun h1 h2 => filter_by_period_invalid_eq df col pname v valids h1 h2,
   fun h1 h2 cvals hc => filter_by_period_match df col pname v valids cvals h1 h2 hc⟩

/-- Witness for C4: "Marchx" is rejected with the error naming value and
period kind; "MARCH" is accepted and normalised. -/
theorem filter_by_period_invalid_period_witness :
    filter_by_period dfX "Month" "month" "Marchx" VALID_MONTHS =
        Except.error (PyError.valueError "Invalid month: marchx") ∧
      filter_by_period dfX "Month" "month" "MARCH" VALID_MONTHS =
        Except.ok (maskDF dfX ([Value.s "March", Value.s "April"].map (fun x =>
          x == Value.s (pyTitle (pyLower (pyStrip "MARCH")))))) :=
  ⟨(filter_by_period_invalid_period dfX "Month" "month" "Marchx" VALID_MONTHS).1
      (by decide) (by decide),
   (filter_by_period_invalid_period dfX "Month" "month" "MARCH" VALID_MONTHS).2
      (by decide) (by decide) [Value.s "March", Value.s "April"] (by decide)⟩

/-- C5 counterexample: when a required column is absent — here, the empty
frame with no columns at all — `time_stats` and `station_stats` do not catch
the failure: the column subscription raises `KeyError`, which is not in the
`except (AttributeError, IndexError)` clause, so it propagates to the
caller, contradicting "never raises an exception to the caller". -/
theorem stats_missing_column_raises :
    time_stats ([] : DataFrame) = Except.error (PyError.keyError "Month") ∧
      station_stats ([] : DataFrame) = Except.error (PyError.keyError "Start Station") :=
  ⟨by decide, by decide⟩

/-- C5 (amended): on an empty table whose required columns are present, the
mode computation raises `IndexError`, which `time_stats` and `station_stats`
catch internally and report as an error message, returning normally; but
when a required column is absent, the subscription raises `KeyError`, which
their handlers do not catch, and the exception reaches the caller. -/
theorem stats_empty_table_reported (df : DataFrame) :
    (colGet df "Month" = Except.ok [] →
      time_stats df = Except.ok ["Error calculating time stats: " ++
        errStr (.indexError "index 0 is out of bounds for axis 0 with size 0")]) ∧
    (colGet df "Start Station" = Except.ok [] →
      station_stats df = Except.ok ["Error calculating station stats: " ++
        errStr (.indexError "index 0 is out of bounds for axis 0 with size 0")]) := by
  constructor
  · intro h
    unfold time_stats time_stats_try
    rw [h]
    rfl
  · intro h
    unfold station_stats station_stats_try
    rw [h]
    rfl

/-- Witness for C5's amended theorem at the concrete empty-but-typed table. -/
theorem stats_empty_table_reported_witness :
    time_stats dfEmptyCols = Except.ok ["Error calculating time stats: " ++
        errStr (.indexError "index 0 is out of bounds for axis 0 with size 0")] ∧
      station_stats dfEmptyCols = Except.ok ["Error calculating station stats: " ++
        errStr (.indexError "index 0 is out of bounds for axis 0 with size 0")] :=
  ⟨(stats_empty_table_reported dfEmptyCols).1 (by decide),
   (stats_empty_table_reported dfEmptyCols).2 (by decide)⟩

/-- C6 (code bug): the source computes the Trip column as
`astype(str).fillna("No Start Station") + " to " + astype(str).fillna("No End Station")`,
but `astype(str)` has already turned the missing station into the literal
string "nan", so the `fillna` sentinel is dead code: a row with a missing
Start Station gets the label "nan to Clark St", not the documented
"No Start Station to Clark St". -/
theorem trip_label_nan_not_sentinel :
    (load_data "chicago" "all" "all" rawNan).bind (fun df => colGet df "Trip") =
        Except.ok [Value.s "nan to Clark St"] ∧
      "nan to Clark St" ≠ "No Start Station to Clark St" :=
  ⟨by decide, by decide⟩

/-- C7: whenever `filter_by_period` succeeds, it is purely a row selection:
the output is the input frame under a single boolean row mask (or the input
itself), so column names are preserved, every output column is a subsequence
of the corresponding input column (no reordering, no altered cells), and the
input table — a pure value in this embedding — is not mutated. -/
theorem filter_by_period_row_selection (df : DataFrame) (col pname v : String)
    (valids : List String) (out : DataFrame)
    (h : filter_by_period df col pname v valids = Except.ok out) :
    (out = df ∨ ∃ mask, out = maskDF df mask) ∧
      List.Forall₂ (fun cIn cOut => cIn.1 = cOut.1 ∧ cOut.2.Sublist cIn.2) df out := by
  rcases filter_by_period_ok_inv df col pname v valids out h with hd | ⟨cvals, hc, hm⟩
  · subst hd
    exact ⟨Or.inl rfl, (List.forall₂_same).mpr (fun c _ => ⟨rfl, List.Sublist.refl c.2⟩)⟩
  · subst hm
    exact ⟨Or.inr ⟨_, rfl⟩, maskDF_forall₂ df _⟩

/-- Witness for C7 at a concrete table and the concrete request "march". -/
theorem filter_by_period_row_selection_witness :
    List.Forall₂ (fun cIn cOut => cIn.1 = cOut.1 ∧ cOut.2.Sublist cIn.2) dfX
      [("Month", [Value.s "March"])] :=
  (filter_by_period_row_selection dfX "Month" "month" "march" VALID_MONTHS
    [("Month", [Value.s "March"])] (by decide)).2

/-- C9: a city whose lowercased name is not a `CITY_DATA` key makes
`load_data` fail with `ValueError("Invalid city name: {city}")` before
touching the data; a known city name in any casing resolves to its backing
CSV path. -/
theorem load_data_city_resolution (city : String) :
    (pyLower city ∉ CITY_DATA.map Prod.fst →
      ∀ m d raw, load_data city m d raw =
        Except.error (.valueError ("Invalid city name: " ++ city))) ∧
    (pyLower city ∈ CITY_DATA.map Prod.fst → ∃ p, resolveCity city = Except.ok p) := by
  constructor
  · intro hno m d raw
    have hr : resolveCity city = Except.error (.valueError ("Invalid city name: " ++ city)) := by
      unfold resolveCity
      have hfind : CITY_DATA.find? (fun c => c.1 == pyLower city) = none := by
        rw [List.find?_eq_none]
        intro c hc
        simp only [beq_iff_eq]
        intro he
        exact hno (he ▸ List.mem_map_of_mem Prod.fst hc)
      rw [hfind]
    unfold load_data
    rw [hr]
    rfl
  · intro hyes
    unfold resolveCity
    cases hf : CITY_DATA.find? (fun c => c.1 == pyLower city) with
    | some c2 => exact ⟨_, rfl⟩
    | none =>
        exfalso
        rw [List.find?_eq_none] at hf
        obtain ⟨c, hcmem, hceq⟩ := List.mem_map.mp hyes
        exact hf c hcmem (by simp [hceq])

/-- Witness for C9: an unknown city is refused with the documented message. -/
theorem load_data_city_resolution_witness :
    load_data "Springfield" "all" "all" rawW =
      Except.error (PyError.valueError "Invalid city name: Springfield") :=
  (load_data_city_resolution "Springfield").1 (by decide) "all" "all" rawW

theorem valid_months_normalized : ∀ m ∈ VALID_MONTHS, pyLower (pyStrip m) = m := by decide

theorem valid_days_normalized : ∀ d ∈ VALID_DAYS, pyLower (pyStrip d) = d := by decide

/-- C1: for every city and every month filter among the six valid months or
"all" and day filter among the seven valid days or "all", whenever
`load_data` returns a table, every row's Month cell equals the title-cased
month filter (when it is not "all") and every row's Day Name cell equals the
title-cased day filter (when it is not "all").  `load_data` is a pure
function of its arguments in this embedding, so it cannot mutate them. -/
theorem load_data_filters_by_month_and_day (city month day : String) (raw out : DataFrame)
    (hm : month ∈ VALID_MONTHS ∨ month = ALL_OPTION)
    (hd : day ∈ VALID_DAYS ∨ day = ALL_OPTION)
    (h : load_data city month day raw = Except.ok out) :
    (month ≠ ALL_OPTION → ∀ mvals, colGet out "Month" = Except.ok mvals →
      ∀ v ∈ mvals, v = Value.s (pyTitle month)) ∧
    (day ≠ ALL_OPTION → ∀ dvals, colGet out "Day Name" = Except.ok dvals →
      ∀ v ∈ dvals, v = Value.s (pyTitle day)) := by
  unfold load_data at h
  simp only [exceptBind_ok, exceptPure_ok] at h
  obtain ⟨fn, hfn, st, hst, mn, hmn, dn, hdn, ss, hss, es, hes, df4, h4, df5, h5, hpure⟩ := h
  subst hpure
  constructor
  · intro hMne mvals hmv v hv
    have hmmem : month ∈ VALID_MONTHS := hm.resolve_right hMne
    have hnorm : pyLower (pyStrip month) = month := valid_months_normalized month hmmem
    obtain ⟨mcol3, hmc3, hdf4eq⟩ :=
      filter_by_period_ok_ne_inv _ _ _ _ _ _ h4 (by rw [hnorm]; exact hMne)
    rw [hnorm] at hdf4eq
    have hcol4 : colGet df4 "Month" =
        Except.ok (applyMask mcol3 (mcol3.map (fun x => x == Value.s (pyTitle month)))) := by
      rw [hdf4eq, colGet_maskDF, hmc3]
      rfl
    rcases filter_by_period_ok_inv _ _ _ _ _ _ h5 with h5eq | ⟨dcol4, hdc4, h5eq⟩
    · rw [h5eq] at hmv
      rw [hcol4] at hmv
      have : mvals = applyMask mcol3 (mcol3.map (fun x => x == Value.s (pyTitle month))) :=
        (Except.ok.inj hmv).symm
      subst this
      exact applyMask_self_eq mcol3 (Value.s (pyTitle month)) v hv
    · rw [h5eq, colGet_maskDF, hcol4] at hmv
      have : mvals = applyMask
          (applyMask mcol3 (mcol3.map (fun x => x == Value.s (pyTitle month)))) _ :=
        (Except.ok.inj hmv).symm
      subst this
      exact applyMask_self_eq mcol3 (Value.s (pyTitle month)) v
        (mem_of_mem_applyMask _ _ hv)
  · intro hDne dvals hdv v hv
    have hdmem : day ∈ VALID_DAYS := hd.resolve_right hDne
    have hnorm : pyLower (pyStrip day) = day := valid_days_normalized day hdmem
    obtain ⟨dcol4, hdc4, hdf5eq⟩ :=
      filter_by_period_ok_ne_inv _ _ _ _ _ _ h5 (by rw [hnorm]; exact hDne)
    rw [hnorm] at hdf5eq
    rw [hdf5eq, colGet_maskDF, hdc4] at hdv
    have : dvals = applyMask dcol4 (dcol4.map (fun x => x == Value.s (pyTitle day))) :=
      (Except.ok.inj hdv).symm
    subst this
    exact applyMask_self_eq dcol4 (Value.s (pyTitle day)) v hv

/-- Witness for C1: loading chicago with the month filter "march" and day
filter "all" on a concrete two-row table yields only rows whose Month cell
is the title-cased "March". -/
theorem load_data_filters_by_month_and_day_witness :
    Value.s "March" = Value.s (pyTitle "march") :=
  (load_data_filters_by_month_and_day "chicago" "march" "all" rawW outW
      (Or.inl (by decide)) (Or.inr (by decide)) (by decide)).1
    (by decide) [Value.s "March"] (by decide) (Value.s "March") (by decide)

theorem hasCol_colGet_ok (df : DataFrame) (n : String) (h : hasCol df n = true) :
    ∃ c, colGet df n = Except.ok c := by
  unfold hasCol at h
  unfold colGet
  cases hf : df.find? (fun c => c.1 == n) with
  | some c => exact ⟨c.2, rfl⟩
  | none =>
      exfalso
      rw [List.find?_eq_none] at hf
      obtain ⟨x, hx, hp⟩ := List.any_eq_true.mp h
      exact hf x hx hp

theorem colGet_ok_hasCol {df : DataFrame} {n : String} {c : List Value}
    (h : colGet df n = Except.ok c) : hasCol df n = true := by
  unfold colGet at h
  cases hf : df.find? (fun x => x.1 == n) with
  | some x =>
      have hp := List.find?_some hf
      exact List.any_eq_true.mpr ⟨x, List.mem_of_find?_eq_some hf, hp⟩
  | none =>
      rw [hf] at h
      exact Except.noConfusion h

theorem utPart_eq (df : DataFrame) : utPart df = Except.ok (utBlock df) := by
  unfold utPart utBlock
  by_cases hu : hasCol df "User Type" = true
  · obtain ⟨c, hc⟩ := hasCol_colGet_ok df "User Type" hu
    rw [if_pos hu, if_pos hu, hc]
  · rw [if_neg hu, if_neg hu]

theorem gPart_eq (df : DataFrame) : gPart df = Except.ok (gBlock df) := by
  unfold gPart gBlock
  by_cases hu : hasCol df "Gender" = true
  · obtain ⟨c, hc⟩ := hasCol_colGet_ok df "Gender" hu
    rw [if_pos hu, if_pos hu, hc]
  · rw [if_neg hu, if_neg hu]

theorem birthLines_empty {c : List Value} (hc : dropna c = []) :
    birthLines c = Except.error (.valueError nanminMsg) := by
  unfold birthLines
  rw [hc]
  rfl

theorem birthLines_cases (c : List Value) :
    (∃ ls, birthLines c = Except.ok ls) ∨ birthLines c = Except.error (.valueError nanminMsg) := by
  by_cases hc : dropna c = []
  · right
    exact birthLines_empty hc
  · left
    cases hbs : (dropna c).map toQ with
    | nil => exact absurd (List.map_eq_nil_iff.mp hbs) hc
    | cons x xs =>
        have hmode : ∃ v, modeIat0 c = Except.ok v := by
          unfold modeIat0
          cases ha : (dropna c).argmax (fun v => (dropna c).count v) with
          | some v => exact ⟨v, rfl⟩
          | none => exact absurd (List.argmax_eq_none.mp ha) hc
        obtain ⟨v, hv⟩ := hmode
        refine ⟨["Earliest birth year: " ++ toString (intPy (xs.foldl min x)),
                 "Most recent birth year: " ++ toString (intPy (xs.foldl max x)),
                 "Most common birth year: " ++ toString (intPy (toQ v)) ++ "\n"], ?_⟩
        unfold birthLines
        rw [hbs, hv]
        rfl

theorem byPart_eq (df : DataFrame) : byPart df = Except.ok (byBlock df) := by
  unfold byPart byBlock
  by_cases hb : hasCol df "Birth Year" = true
  · rw [if_pos hb, if_pos hb]
    obtain ⟨c, hc⟩ := hasCol_colGet_ok df "Birth Year" hb
    rw [hc]
    dsimp only
    rcases birthLines_cases c with ⟨ls, hl⟩ | hl
    · rw [hl]
    · rw [hl]
      rfl
  · rw [if_neg hb, if_neg hb]

theorem user_stats_eq (df : DataFrame) :
    user_stats df = Except.ok (utBlock df ++ gBlock df ++ byBlock df) := by
  unfold user_stats user_stats_try
  rw [utPart_eq, gPart_eq, byPart_eq]
  rfl

/-- C8: `user_stats` always returns normally, and its report is the
concatenation of three independent blocks — User Type, Gender, Birth Year —
where each block is empty exactly when its source column is absent, the User
Type and Gender blocks are computed from their own columns only, and a
degenerate (all-missing) Birth Year column makes the Birth Year block the
reported error lines of the inner handler without touching the other two
blocks or aborting the routine. -/
theorem user_stats_isolation (df : DataFrame) :
    user_stats df = Except.ok (utBlock df ++ gBlock df ++ byBlock df) ∧
    (hasCol df "User Type" = false → utBlock df = []) ∧
    (hasCol df "Gender" = false → gBlock df = []) ∧
    (hasCol df "Birth Year" = false → byBlock df = []) ∧
    (∀ c, colGet df "User Type" = Except.ok c → utBlock df = [userTypeLine c]) ∧
    (∀ c, colGet df "Gender" = Except.ok c → gBlock df = [genderLine c]) ∧
    (∀ c, colGet df "Birth Year" = Except.ok c → dropna c = [] →
      byBlock df = birthErrLines (.valueError nanminMsg)) := by
  refine ⟨user_stats_eq df, ?_, ?_, ?_, ?_, ?_, ?_⟩
  · intro h
    unfold utBlock
    rw [if_neg (by rw [h]; exact Bool.false_ne_true)]
  · intro h
    unfold gBlock
    rw [if_neg (by rw [h]; exact Bool.false_ne_true)]
  · intro h
    unfold byBlock
    rw [if_neg (by rw [h]; exact Bool.false_ne_true)]
  · intro c hc
    unfold utBlock
    rw [if_pos (colGet_ok_hasCol hc), hc]
  · intro c hc
    unfold gBlock
    rw [if_pos (colGet_ok_hasCol hc), hc]
  · intro c hc hdrop
    unfold byBlock
    rw [if_pos (colGet_ok_hasCol hc), hc]
    dsimp only
    rw [birthLines_empty hdrop]
    rfl

/-- Witness for C8 at a concrete frame with a User Type column, no Gender
column, and an all-missing Birth Year column. -/
theorem user_stats_isolation_witness :
    user_stats dfW8 = Except.ok (utBlock dfW8 ++ gBlock dfW8 ++ byBlock dfW8) ∧
      gBlock dfW8 = [] ∧
      byBlock dfW8 = birthErrLines (.valueError nanminMsg) :=
  ⟨(user_stats_isolation dfW8).1,
   (user_stats_isolation dfW8).2.2.1 (by decide),
   (user_stats_isolation dfW8).2.2.2.2.2.2 [Value.nan, Value.nan, Value.nan]
     (by decide) (by decide)⟩

theorem qFloorDiv_nonneg {s : ℚ} {k : ℕ} (hs : 0 ≤ s) : 0 ≤ qFloorDiv s k := by
  unfold qFloorDiv
  exact Int.ediv_nonneg (Rat.num_nonneg.mpr hs) (by positivity)

theorem qMod_nonneg (s : ℚ) (k : ℕ) (hk : k ≠ 0) : 0 ≤ qMod s k := by
  unfold qMod
  rw [Rat.mkRat_eq_div]
  apply div_nonneg
  · have hb : ((k : ℤ) * (s.den : ℤ)) ≠ 0 :=
      mul_ne_zero (Int.natCast_ne_zero.mpr hk) (Int.natCast_ne_zero.mpr s.den_nz)
    exact_mod_cast Int.emod_nonneg s.num hb
  · exact Nat.cast_nonneg _

theorem pyRound_nonneg {q : ℚ} (hq : 0 ≤ q) : 0 ≤ pyRound q := by
  have hf : 0 ≤ q.num / (q.den : ℤ) := Int.ediv_nonneg (Rat.num_nonneg.mpr hq) (by positivity)
  unfold pyRound
  dsimp only
  split_ifs <;> omega

theorem format_duration_eq_spec (s : ℚ) (hs : 0 ≤ s) :
    format_duration s = format_duration_spec s := by
  have hd : 0 ≤ qFloorDiv s 86400 := qFloorDiv_nonneg hs
  have hh : 0 ≤ qFloorDiv (qMod s 86400) 3600 :=
    qFloorDiv_nonneg (qMod_nonneg s 86400 (by norm_num))
  have hm2 : 0 ≤ qFloorDiv (qMod s 3600) 60 :=
    qFloorDiv_nonneg (qMod_nonneg s 3600 (by norm_num))
  have hsc : 0 ≤ pyRound (qMod s 60) := pyRound_nonneg (qMod_nonneg s 60 (by norm_num))
  unfold format_duration format_duration_spec
  set nd := qFloorDiv s 86400 with hnd
  set nh := qFloorDiv (qMod s 86400) 3600 with hnh
  set nm := qFloorDiv (qMod s 3600) 60 with hnm
  set ns := pyRound (qMod s 60) with hns
  clear_value nd nh nm ns
  clear hnd hnh hnm hns
  have ed : (nd ≠ 0) ↔ (0 < nd) := ⟨fun hne => lt_of_le_of_ne hd (Ne.symm hne), fun hl => hl.ne'⟩
  have eh : (nh ≠ 0) ↔ (0 < nh) := ⟨fun hne => lt_of_le_of_ne hh (Ne.symm hne), fun hl => hl.ne'⟩
  have em : (nm ≠ 0) ↔ (0 < nm) := ⟨fun hne => lt_of_le_of_ne hm2 (Ne.symm hne), fun hl => hl.ne'⟩
  have es : (ns ≠ 0) ↔ (0 < ns) := ⟨fun hne => lt_of_le_of_ne hsc (Ne.symm hne), fun hl => hl.ne'⟩
  rcases hd.lt_or_eq with h1 | h1 <;> rcases hh.lt_or_eq with h2 | h2 <;>
      rcases hm2.lt_or_eq with h3 | h3 <;> rcases hsc.lt_or_eq with h4 | h4 <;>
      (try subst h1) <;> (try subst h2) <;> (try subst h3) <;> (try subst h4) <;>
      (simp [*, List.filter_cons, decide_eq_true_eq]; all_goals decide)

/-- C3: for every non-negative duration `s` in seconds, `format_duration`
agrees with the specification's formatting algorithm — days `s // 86400`,
hours `(s % 86400) // 3600`, minutes `(s % 3600) // 60`, seconds
`round(s % 60)`, emitting exactly the non-zero units in descending order as
pluralised "{n} {unit}" pieces separated by spaces, with "0 seconds" when
all components are zero — and in particular produces the five documented
example outputs. -/
theorem format_duration_meets_spec (s : ℚ) (hs : 0 ≤ s) :
    format_duration s = format_duration_spec s ∧
    format_duration 0 = "0 seconds" ∧
    format_duration 45 = "45 seconds" ∧
    format_duration 90 = "1 minutes 30 seconds" ∧
    format_duration 3661 = "1 hours 1 minutes 1 seconds" ∧
    format_duration 90061 = "1 days 1 hours 1 minutes 1 seconds" :=
  ⟨format_duration_eq_spec s hs, by decide, by decide, by decide, by decide, by decide⟩

/-- Witness for C3 at the concrete duration 45. -/
theorem format_duration_meets_spec_witness :
    format_duration 45 = format_duration_spec 45 :=
  (format_duration_meets_spec 45 (by norm_num)).1

/-- C10: rounding of the seconds remainder does not carry into the minutes
unit, so a non-integer duration can print a seconds component of 60:
`mkRat 298 5` is 59.6 and formats as "60 seconds", and `mkRat 598 5` is
119.6 and formats as "1 minutes 60 seconds". -/
theorem format_duration_can_emit_sixty :
    format_duration (mkRat 298 5) = "60 seconds" ∧
      format_duration (mkRat 598 5) = "1 minutes 60 seconds" :=
  ⟨by decide, by decide⟩

theorem qMod_characterization (s : ℚ) (k : ℕ) (hk : 0 < k) :
    (qMod s k : ℚ) = s - (k : ℚ) * ((qFloorDiv s k : ℤ) : ℚ) ∧
      0 ≤ qMod s k ∧ qMod s k < (k : ℚ) := by
  have hdenQ : (0:ℚ) < (s.den : ℚ) := by
    exact_mod_cast Nat.pos_of_ne_zero s.den_nz
  have hb : (0 : ℤ) < (k : ℤ) * (s.den : ℤ) := by
    apply mul_pos
    · exact_mod_cast hk
    · exact_mod_cast Nat.pos_of_ne_zero s.den_nz
  refine ⟨?_, qMod_nonneg s k hk.ne', ?_⟩
  · unfold qMod qFloorDiv
    rw [Rat.mkRat_eq_div, Int.emod_def]
    push_cast
    rw [sub_div, Rat.num_div_den]
    congr 1
    field_simp
    ring
  · unfold qMod
    rw [Rat.mkRat_eq_div, div_lt_iff₀ hdenQ]
    have h2 := Int.emod_lt_of_pos s.num hb
    exact_mod_cast h2

theorem qFloorDiv_char (s : ℚ) (k : ℕ) (hk : 0 < k) :
    ((qFloorDiv s k : ℤ) : ℚ) * k ≤ s ∧ s < (((qFloorDiv s k : ℤ) : ℚ) + 1) * k := by
  obtain ⟨heq, hge, hlt⟩ := qMod_characterization s k hk
  have hc : (k:ℚ) * ((qFloorDiv s k : ℤ) : ℚ) = ((qFloorDiv s k : ℤ) : ℚ) * k := mul_comm _ _
  have he : (((qFloorDiv s k : ℤ) : ℚ) + 1) * k = ((qFloorDiv s k : ℤ) : ℚ) * k + k := by ring
  constructor <;> linarith

theorem pyRound_examples :
    pyRound (mkRat 1 2) = 0 ∧ pyRound (mkRat 3 2) = 2 ∧ pyRound (mkRat 5 2) = 2 ∧
      pyRound (mkRat 296 5) = 59 ∧ pyRound (mkRat 298 5) = 60 ∧ pyRound (mkRat (-3) 2) = -2 := by
  decide

theorem pyRound_char (q : ℚ) :
    -(1/2 : ℚ) ≤ q - ((pyRound q : ℤ) : ℚ) ∧ q - ((pyRound q : ℤ) : ℚ) ≤ 1/2 := by
  have hdenZ : (0:ℤ) < (q.den : ℤ) := by exact_mod_cast Nat.pos_of_ne_zero q.den_nz
  have hdenQ : (0:ℚ) < (q.den : ℚ) := by exact_mod_cast Nat.pos_of_ne_zero q.den_nz
  set f := q.num / (q.den : ℤ) with hf
  set r := q.num - f * (q.den : ℤ) with hr
  have hrmod : r = q.num % (q.den : ℤ) := by rw [hr, hf, Int.emod_def]; ring
  have hr0 : 0 ≤ r := by rw [hrmod]; exact Int.emod_nonneg q.num hdenZ.ne'
  have hrlt : r < (q.den : ℤ) := by rw [hrmod]; exact Int.emod_lt_of_pos q.num hdenZ
  have hnum : (q.num : ℚ) = q * (q.den : ℚ) := (div_eq_iff hdenQ.ne').mp (Rat.num_div_den q)
  have hqf : q - (f:ℚ) = ((r:ℤ):ℚ) / (q.den:ℚ) := by
    rw [hr]
    push_cast
    field_simp
    rw [hnum]
    ring
  have key : (pyRound q = f ∧ 2*r ≤ (q.den:ℤ)) ∨ (pyRound q = f + 1 ∧ (q.den:ℤ) ≤ 2*r) := by
    unfold pyRound
    dsimp only
    rw [← hf, ← hr]
    split_ifs with hA hB hC
    · exact Or.inl ⟨rfl, by omega⟩
    · exact Or.inr ⟨rfl, by omega⟩
    · exact Or.inl ⟨rfl, by omega⟩
    · exact Or.inr ⟨rfl, by omega⟩
  have hrQ0 : (0:ℚ) ≤ (r:ℚ) := by exact_mod_cast hr0
  have hrQlt : (r:ℚ) < (q.den:ℚ) := by exact_mod_cast hrlt
  have hdiv0 : 0 ≤ (r:ℚ)/(q.den:ℚ) := div_nonneg hrQ0 hdenQ.le
  have hdiv1 : (r:ℚ)/(q.den:ℚ) < 1 := by rw [div_lt_one hdenQ]; exact hrQlt
  rcases key with ⟨hv, hcond⟩ | ⟨hv, hcond⟩
  · have hcQ : 2*(r:ℚ) ≤ (q.den:ℚ) := by exact_mod_cast hcond
    have hhalf : (r:ℚ)/(q.den:ℚ) ≤ 1/2 := by rw [div_le_iff₀ hdenQ]; linarith
    rw [hv]
    constructor <;> linarith [hqf]
  · have hcQ : (q.den:ℚ) ≤ 2*(r:ℚ) := by exact_mod_cast hcond
    have hhalf : 1/2 ≤ (r:ℚ)/(q.den:ℚ) := by rw [le_div_iff₀ hdenQ]; linarith
    rw [hv]
    push_cast
    constructor <;> linarith [hqf]
